import Mathlib

/-!
Library Management System — verification of the Lending Transaction Engine
of `LIBRARYMANAGEMENTSYSTEM.py`.

The Supabase entity store is modelled as an in-memory database value (`DB`)
holding the three tables (`members`, `books`, `borrow_records`) as lists of
rows in table order, together with the store-assigned auto-increment id
counters. A point lookup (`.eq(...).single()`) yields zero-or-one record,
`update ... eq` patches every matching row, and `delete ... eq` removes
every matching row, per the entity-store interface. Fallible store calls
(the loan-record insert inside `borrow_book`, the RPC aggregation
endpoints) are modelled by an explicit success/failure parameter, since
their outcome is decided by the external store. Timestamps are integers
(seconds); `timedelta(days=14)` is `14 * 86400`. The emoji prefix of the
user-facing error strings and the column projection of `report_overdue`
are elided; Python string primitives (`strip`, `lower`, substring `ilike`)
are modelled on character lists so that they evaluate.
-/

namespace LibraryMS

/-- A row of the `members` table. -/
structure Member where
  member_id : Nat
  name : String
  email : String
deriving Repr, DecidableEq

/-- A row of the `books` table. `stock` is an integer; the Python code places
no constraint on it. -/
structure Book where
  book_id : Nat
  title : String
  author : String
  category : String
  stock : Int
deriving Repr, DecidableEq

/-- A row of the `borrow_records` table. `return_date = none` is an open
loan; `some t` is a closed loan returned at time `t`. -/
structure BorrowRecord where
  record_id : Nat
  member_id : Nat
  book_id : Nat
  borrow_date : Int
  return_date : Option Int
deriving Repr, DecidableEq

/-- The entity store: the three tables in row order plus the
store-assigned auto-increment id counters. -/
structure DB where
  members : List Member
  books : List Book
  borrow_records : List BorrowRecord
  next_member_id : Nat
  next_book_id : Nat
  next_record_id : Nat
deriving Repr, DecidableEq

/-- Result of an operation that the Python code reports as either an
`{"error": msg}` dict or a success payload. -/
inductive OpResult (α : Type) where
  | error (msg : String)
  | ok (data : α)
deriving Repr, DecidableEq

/-- Point lookup `books.select(...).eq("book_id", bid).single()`:
zero-or-one record. -/
def find_book (bid : Nat) (st : DB) : Option Book :=
  st.books.find? (fun b => b.book_id == bid)

/-- Point lookup `borrow_records.select("*").eq("record_id", rid).single()`. -/
def find_record (rid : Nat) (st : DB) : Option BorrowRecord :=
  st.borrow_records.find? (fun r => r.record_id == rid)

/-- Python `add_member(name, email)`: insert with store-assigned id; returns the
inserted rows. -/
def add_member (name email : String) (st : DB) : List Member × DB :=
  let m : Member := ⟨st.next_member_id, name, email⟩
  ([m], { st with members := st.members ++ [m],
                  next_member_id := st.next_member_id + 1 })

/-- Python `list_members()`. -/
def list_members (st : DB) : List Member :=
  st.members

/-- Python `update_member(member_id, new_email)`: patch email on every matching row;
returns the updated rows. -/
def update_member (mid : Nat) (new_email : String) (st : DB) :
    List Member × DB :=
  let upd := fun (m : Member) =>
    if m.member_id == mid then { m with email := new_email } else m
  ((st.members.filter (fun m => m.member_id == mid)).map upd,
   { st with members := st.members.map upd })

/-- Python `delete_member(member_id)`: refuse when the member has any open borrow
record, otherwise delete every matching member row (returning the deleted
rows). No mutation on refusal. -/
def delete_member (mid : Nat) (st : DB) : OpResult (List Member) × DB :=
  let borrowed := st.borrow_records.filter
    (fun r => r.member_id == mid && r.return_date.isNone)
  if borrowed.isEmpty then
    (.ok (st.members.filter (fun m => m.member_id == mid)),
     { st with members := st.members.filter (fun m => !(m.member_id == mid)) })
  else
    (.error "Member has borrowed books, cannot delete!", st)

/-- Python `add_book(title, author, category, stock)`: insert with store-assigned
id; the Python code performs no validation of `stock`. -/
def add_book (title author category : String) (stock : Int) (st : DB) :
    List Book × DB :=
  let b : Book := ⟨st.next_book_id, title, author, category, stock⟩
  ([b], { st with books := st.books ++ [b],
                  next_book_id := st.next_book_id + 1 })

/-- Python `list_books()`. -/
def list_books (st : DB) : List Book :=
  st.books

/-- Python `update_book_stock(book_id, new_stock)`: patch stock on every matching
row, no validation. -/
def update_book_stock (bid : Nat) (new_stock : Int) (st : DB) :
    List Book × DB :=
  let upd := fun (b : Book) =>
    if b.book_id == bid then { b with stock := new_stock } else b
  ((st.books.filter (fun b => b.book_id == bid)).map upd,
   { st with books := st.books.map upd })

/-- Python `delete_book(book_id)`: refuse when the book has any open borrow record,
otherwise delete every matching book row. No mutation on refusal. -/
def delete_book (bid : Nat) (st : DB) : OpResult (List Book) × DB :=
  let borrowed := st.borrow_records.filter
    (fun r => r.book_id == bid && r.return_date.isNone)
  if borrowed.isEmpty then
    (.ok (st.books.filter (fun b => b.book_id == bid)),
     { st with books := st.books.filter (fun b => !(b.book_id == bid)) })
  else
    (.error "Book is currently borrowed, cannot delete!", st)

/-- Python `str.lower()`, on the character list. -/
def lowerChars (s : String) : List Char :=
  s.toList.map Char.toLower

/-- Python `str.strip()`: drop whitespace from both ends. -/
def trimChars (s : String) : List Char :=
  ((s.toList.dropWhile Char.isWhitespace).reverse.dropWhile
    Char.isWhitespace).reverse

/-- Case-insensitive substring match: `ilike(field, "%keyword%")`. -/
def containsCI (hay : String) (pat : List Char) : Bool :=
  decide (pat.map Char.toLower <:+: lowerChars hay)

/-- The `seen`-set deduplication loop of `search_books`: keep the first row
for each `book_id`, skipping ids already in `seen`. -/
def dedupById : List Book → List Nat → List Book
  | [], _ => []
  | b :: bs, seen =>
    if b.book_id ∈ seen then dedupById bs seen
    else b :: dedupById bs (b.book_id :: seen)

/-- The field scan order of `search_books`: `("title", "author", "category")`. -/
def searchFields : List (Book → String) :=
  [Book.title, Book.author, Book.category]

/-- Python `search_books(keyword)`: strip, return `[]` for an empty keyword,
otherwise scan title/author/category with case-insensitive substring match
and deduplicate by `book_id`, keeping first-matched order. -/
def search_books (keyword : String) (st : DB) : List Book :=
  if trimChars keyword = [] then []
  else
    dedupById
      (searchFields.flatMap (fun f =>
        st.books.filter (fun b => containsCI (f b) (trimChars keyword)))) []

/-- Python `borrow_book(member_id, book_id)`. `now` is the store clock assigning
the new record's `borrow_date`; `insertOk` is whether the loan-record
insert succeeds at the store (its failure raises the caught exception).
When the book is absent or `stock <= 0` the single error
`"Book not available!"` is returned with no mutation. Otherwise the stock
is decremented first; if the insert then fails, the code returns the
transaction-failed error WITHOUT undoing the decrement. -/
def borrow_book (mid bid : Nat) (now : Int) (insertOk : Bool) (st : DB) :
    OpResult (List BorrowRecord) × DB :=
  match find_book bid st with
  | none => (.error "Book not available!", st)
  | some book =>
    if book.stock ≤ 0 then (.error "Book not available!", st)
    else
      let st1 := { st with books := st.books.map (fun b =>
        if b.book_id == bid then { b with stock := book.stock - 1 } else b) }
      if insertOk then
        let rec0 : BorrowRecord := ⟨st1.next_record_id, mid, bid, now, none⟩
        (.ok [rec0],
         { st1 with borrow_records := st1.borrow_records ++ [rec0],
                    next_record_id := st1.next_record_id + 1 })
      else
        (.error "Transaction failed", st1)

/-- Python `return_book(record_id)`. Absent record and already-returned record are
rejected before any mutation; otherwise `return_date` is set to `now` on
every matching record, then the book's stock is read (`or {"stock": 0}`
when the book is absent) and written back incremented by one. -/
def return_book (rid : Nat) (now : Int) (st : DB) : OpResult Unit × DB :=
  match find_record rid st with
  | none => (.error "Record not found!", st)
  | some record =>
    if record.return_date.isSome then
      (.error "Book already returned!", st)
    else
      let st1 := { st with borrow_records := st.borrow_records.map (fun r =>
        if r.record_id == rid then { r with return_date := some now } else r) }
      let stock := ((find_book record.book_id st1).map Book.stock).getD 0
      let st2 := { st1 with books := st1.books.map (fun b =>
        if b.book_id == record.book_id then { b with stock := stock + 1 }
        else b) }
      (.ok (), st2)

/-- A row of the precomputed `top_books` aggregation view. -/
structure TopBookRow where
  book_id : Nat
  borrow_count : Nat
deriving Repr, DecidableEq

/-- A row of the precomputed `member_borrow_count` aggregation view. -/
structure MemberBorrowRow where
  member_id : Nat
  borrow_count : Nat
deriving Repr, DecidableEq

/-- Outcome of an RPC call to the aggregation source: `.error` when the
call raises (source unavailable), `.ok none` when it succeeds with null
data, `.ok (some rows)` otherwise. -/
def rpcFallback {α : Type} (resp : Except String (Option (List α))) :
    List α :=
  match resp with
  | .error _ => []
  | .ok d => d.getD []

/-- Python `report_top_books()`: delegate to the `top_books` RPC; on exception or
null data return `[]`. -/
def report_top_books (resp : Except String (Option (List TopBookRow))) :
    List TopBookRow :=
  rpcFallback resp

/-- Python `report_member_borrows()`: delegate to the `member_borrow_count` RPC;
on exception or null data return `[]`. -/
def report_member_borrows
    (resp : Except String (Option (List MemberBorrowRow))) :
    List MemberBorrowRow :=
  rpcFallback resp

/-- Python `report_overdue()`: open records with `borrow_date` strictly before
`now - timedelta(days=14)`. Pure read. -/
def report_overdue (now : Int) (st : DB) : List BorrowRecord :=
  let overdue_limit := now - 14 * 86400
  st.borrow_records.filter
    (fun r => r.return_date.isNone && decide (r.borrow_date < overdue_limit))

/-- State for claim C1: a single book with one copy in stock and no loans. -/
def c1_state : DB := ⟨[], [⟨1, "t", "a", "c", 1⟩], [], 1, 2, 1⟩

/-- State for the C2 counterexample: an empty store. -/
def c2_cex_state : DB := ⟨[], [], [], 1, 1, 1⟩

/-- State for the C2 witness: one member, one book with stock 2, one open loan. -/
def c2_witness_state : DB :=
  ⟨[⟨7, "n", "e"⟩], [⟨1, "t", "a", "c", 2⟩], [⟨1, 7, 1, 0, none⟩], 8, 2, 2⟩

/-- State for the C3 witness: loan record 1 is already closed (returned at time 10). -/
def c3_state : DB :=
  ⟨[⟨7, "n", "e"⟩], [⟨1, "t", "a", "c", 1⟩], [⟨1, 7, 1, 0, some 10⟩], 8, 2, 2⟩

/-- State for the C4 witness: member 7 holds an open loan on book 1. -/
def c4_busy_state : DB :=
  ⟨[⟨7, "n", "e"⟩], [⟨1, "t", "a", "c", 0⟩], [⟨1, 7, 1, 0, none⟩], 8, 2, 2⟩

/-- State for C5: no book with id 1 exists. -/
def c5_missing_state : DB := ⟨[], [], [], 1, 1, 1⟩

/-- State for C5: book 1 exists with stock 0. -/
def c5_zero_state : DB := ⟨[], [⟨1, "t", "a", "c", 0⟩], [], 1, 2, 1⟩

/-- State for the C6 witness: book 1 with stock 1, no loans. -/
def c6_state : DB := ⟨[], [⟨1, "t", "a", "c", 1⟩], [], 1, 2, 1⟩

/-- State for the C7 witness: the concrete catalog of spec scenario C. -/
def c7_state : DB :=
  ⟨[], [⟨1, "The Go Programming Language", "Rob Pike", "Systems", 3⟩], [],
   1, 2, 1⟩

/-- State for C8, spec scenario D at now = day 20: record 1 borrowed at day 0 (20 days ago), record 2 at day 15 (5 days ago), both open. -/
def c8_state : DB :=
  ⟨[], [], [⟨1, 7, 1, 0, none⟩, ⟨2, 7, 1, 15 * 86400, none⟩], 1, 1, 3⟩

/-- State for the C10 witness: book 1 in stock, no member 42 anywhere. -/
def c10_state : DB := ⟨[], [⟨1, "t", "a", "c", 1⟩], [], 1, 2, 5⟩

/-- Mapping a list by a function that preserves the search predicate commutes with `find?`. -/
theorem find?_map_of_pred {α : Type} (p : α → Bool) (g : α → α)
    (l : List α) (hp : ∀ a, p (g a) = p a) :
    (l.map g).find? p = (l.find? p).map g := by
  induction l with
  | nil => rfl
  | cons a l ih =>
    by_cases h : p a = true
    · rw [List.map_cons, List.find?_cons_of_pos _ (by rw [hp]; exact h),
        List.find?_cons_of_pos _ h]
      rfl
    · rw [List.map_cons, List.find?_cons_of_neg _ (by rw [hp]; simpa using h),
        List.find?_cons_of_neg _ (by simpa using h), ih]

/-- Patching the stock of every row matching `bid` maps the found row accordingly. -/
theorem find?_stock_patch_some (bid : Nat) (s : Int) (l : List Book) (b : Book)
    (hfind : l.find? (fun x => x.book_id == bid) = some b) :
    (l.map (fun x =>
        if x.book_id == bid then { x with stock := s } else x)).find?
      (fun x => x.book_id == bid) = some { b with stock := s } := by
  rw [find?_map_of_pred _ _ l (by
    intro a
    by_cases h : (a.book_id == bid) = true <;> simp [h]), hfind]
  have hb2 : (b.book_id == bid) = true :=
    List.find?_some (p := fun x : Book => x.book_id == bid) hfind
  simp only [Option.map_some']
  rw [if_pos hb2]

/-- Unfolding of a successful borrow: the found book has positive stock and the record insert succeeds. -/
theorem borrow_book_ok (mid bid : Nat) (now : Int) (st : DB) (b : Book)
    (hfind : find_book bid st = some b) (hstock : 0 < b.stock) :
    borrow_book mid bid now true st =
      (.ok [⟨st.next_record_id, mid, bid, now, none⟩],
       { st with
           books := st.books.map (fun x =>
             if x.book_id == bid then { x with stock := b.stock - 1 } else x),
           borrow_records :=
             st.borrow_records ++ [⟨st.next_record_id, mid, bid, now, none⟩],
           next_record_id := st.next_record_id + 1 }) := by
  unfold borrow_book
  rw [hfind]
  dsimp only
  rw [if_neg (not_le.mpr hstock), if_pos rfl]

/-- Unfolding of a borrow on an absent book. -/
theorem borrow_book_absent (mid bid : Nat) (now : Int) (insertOk : Bool)
    (st : DB) (h : find_book bid st = none) :
    borrow_book mid bid now insertOk st = (.error "Book not available!", st) := by
  unfold borrow_book
  rw [h]

/-- Unfolding of a borrow on a book with non-positive stock. -/
theorem borrow_book_nostock (mid bid : Nat) (now : Int) (insertOk : Bool)
    (st : DB) (b : Book) (hfind : find_book bid st = some b)
    (h : b.stock ≤ 0) :
    borrow_book mid bid now insertOk st = (.error "Book not available!", st) := by
  unfold borrow_book
  rw [hfind]
  dsimp only
  rw [if_pos h]

/-- Unfolding of a successful return of an open record. -/
theorem return_book_ok (rid : Nat) (now : Int) (st : DB) (r : BorrowRecord)
    (hfind : find_record rid st = some r) (hopen : r.return_date = none) :
    return_book rid now st =
      (.ok (),
       { st with
           borrow_records := (st.borrow_records.map (fun x =>
             if x.record_id == rid then { x with return_date := some now }
             else x)),
           books := (st.books.map (fun x =>
             if x.book_id == r.book_id then
               { x with stock := (((st.books.find? (fun y =>
                   y.book_id == r.book_id)).map Book.stock).getD 0) + 1 }
             else x)) }) := by
  unfold return_book
  rw [hfind]
  dsimp only
  rw [hopen]
  simp only [Option.isSome_none, Bool.false_eq_true, if_false]
  rfl

/-- Unfolding of `delete_member` as a single conditional. -/
theorem delete_member_eq (mid : Nat) (st : DB) :
    delete_member mid st =
      if (st.borrow_records.filter
          (fun r => r.member_id == mid && r.return_date.isNone)).isEmpty
      then (.ok (st.members.filter (fun m => m.member_id == mid)),
            { st with members := (st.members.filter
                (fun m => !(m.member_id == mid))) })
      else (.error "Member has borrowed books, cannot delete!", st) := rfl

/-- Unfolding of `delete_book` as a single conditional. -/
theorem delete_book_eq (bid : Nat) (st : DB) :
    delete_book bid st =
      if (st.borrow_records.filter
          (fun r => r.book_id == bid && r.return_date.isNone)).isEmpty
      then (.ok (st.books.filter (fun b => b.book_id == bid)),
            { st with books := (st.books.filter
                (fun b => !(b.book_id == bid))) })
      else (.error "Book is currently borrowed, cannot delete!", st) := rfl

/-- The member delete guard passes exactly when no open record references the member. -/
theorem member_guard_isEmpty_iff (mid : Nat) (st : DB) :
    ((st.borrow_records.filter
        (fun r => r.member_id == mid && r.return_date.isNone)).isEmpty = true)
      ↔ ¬ ∃ r ∈ st.borrow_records, r.member_id = mid ∧ r.return_date = none := by
  rw [List.isEmpty_iff, List.filter_eq_nil_iff]
  simp [Option.isNone_iff_eq_none, not_and]

/-- The book delete guard passes exactly when no open record references the book. -/
theorem book_guard_isEmpty_iff (bid : Nat) (st : DB) :
    ((st.borrow_records.filter
        (fun r => r.book_id == bid && r.return_date.isNone)).isEmpty = true)
      ↔ ¬ ∃ r ∈ st.borrow_records, r.book_id = bid ∧ r.return_date = none := by
  rw [List.isEmpty_iff, List.filter_eq_nil_iff]
  simp [Option.isNone_iff_eq_none, not_and]

/-- Ids in the seen set never appear in the deduplicated output. -/
theorem dedupById_not_mem : ∀ (l : List Book) (seen : List Nat) (i : Nat),
    i ∈ seen → i ∉ (dedupById l seen).map Book.book_id := by
  intro l
  induction l with
  | nil =>
    intro seen i hi
    simp [dedupById]
  | cons b bs ih =>
    intro seen i hi
    unfold dedupById
    by_cases hb : b.book_id ∈ seen
    · rw [if_pos hb]
      exact ih seen i hi
    · rw [if_neg hb]
      simp only [List.map_cons, List.mem_cons, not_or]
      refine ⟨?_, ih _ i (List.mem_cons_of_mem _ hi)⟩
      intro hcontra
      exact hb (hcontra ▸ hi)

/-- The deduplicated output has no repeated book id. -/
theorem dedupById_nodup : ∀ (l : List Book) (seen : List Nat),
    ((dedupById l seen).map Book.book_id).Nodup := by
  intro l
  induction l with
  | nil =>
    intro seen
    simp [dedupById]
  | cons b bs ih =>
    intro seen
    unfold dedupById
    by_cases hb : b.book_id ∈ seen
    · rw [if_pos hb]
      exact ih seen
    · rw [if_neg hb]
      simp only [List.map_cons, List.nodup_cons]
      exact ⟨dedupById_not_mem bs _ b.book_id (List.mem_cons_self _ _), ih _⟩

/-- Every input id is in the seen set or survives deduplication. -/
theorem dedupById_mem_of_mem : ∀ (l : List Book) (seen : List Nat) (i : Nat),
    i ∈ l.map Book.book_id →
    i ∈ seen ∨ i ∈ (dedupById l seen).map Book.book_id := by
  intro l
  induction l with
  | nil =>
    intro seen i hi
    simp at hi
  | cons b bs ih =>
    intro seen i hi
    simp only [List.map_cons, List.mem_cons] at hi
    unfold dedupById
    by_cases hb : b.book_id ∈ seen
    · rw [if_pos hb]
      rcases hi with rfl | h
      · exact Or.inl hb
      · exact ih seen i h
    · rw [if_neg hb]
      simp only [List.map_cons, List.mem_cons]
      rcases hi with rfl | h
      · exact Or.inr (Or.inl rfl)
      · rcases ih (b.book_id :: seen) i h with hs | ho
        · rcases List.mem_cons.mp hs with rfl | hs2
          · exact Or.inr (Or.inl rfl)
          · exact Or.inl hs2
        · exact Or.inr (Or.inr ho)

/-- Claim C1: evaluation at the failing input. When the loan-record insert fails after the stock decrement succeeds, `borrow_book` reports the error, but the decrement is NOT rolled back: the stock of book 1 changes from 1 to 0 even though an error is returned, and no loan record exists. This exhibits the partial effect the claim (and the code section header "TRANSACTIONS" / the message "Transaction failed") rules out. -/
theorem c1_failed_insert_leaves_decrement :
    (borrow_book 7 1 100 false c1_state).1 = .error "Transaction failed" ∧
    (find_book 1 c1_state).map Book.stock = some 1 ∧
    (find_book 1 (borrow_book 7 1 100 false c1_state).2).map Book.stock
      = some 0 ∧
    (borrow_book 7 1 100 false c1_state).2.borrow_records
      = c1_state.borrow_records := by
  decide

/-- Claim C2, counterexample: `add_book` with stock -5 is not rejected — there is no validation and no error channel at all — and the stored book has stock -5 < 0, violating the claimed invariant after an exposed operation. -/
theorem c2_cex :
    (add_book "t" "a" "c" (-5) c2_cex_state).1 = [⟨1, "t", "a", "c", -5⟩] ∧
    (add_book "t" "a" "c" (-5) c2_cex_state).2.books.map Book.stock
      = [-5] := by
  decide

/-- Claim C2, amended: `borrow_book` (whether or not the insert succeeds) and `return_book` preserve the invariant that every stored stock is nonnegative; the invariant can only be broken by the unvalidated inputs of `add_book` / `update_book_stock`. -/
theorem c2_borrow_return_preserve_nonneg (mid bid rid : Nat) (now : Int)
    (insertOk : Bool) (st : DB) (h : ∀ b ∈ st.books, 0 ≤ b.stock) :
    (∀ b ∈ (borrow_book mid bid now insertOk st).2.books, 0 ≤ b.stock) ∧
    (∀ b ∈ (return_book rid now st).2.books, 0 ≤ b.stock) := by
  constructor
  · unfold borrow_book
    cases hf : find_book bid st with
    | none => exact h
    | some book =>
      dsimp only
      by_cases hs : book.stock ≤ 0
      · rw [if_pos hs]
        exact h
      · rw [if_neg hs]
        have hbound : ∀ b ∈ st.books.map (fun x =>
            if x.book_id == bid then { x with stock := book.stock - 1 }
            else x), 0 ≤ b.stock := by
          intro b hb
          obtain ⟨a, ha, rfl⟩ := List.mem_map.mp hb
          by_cases hk : (a.book_id == bid) = true
          · rw [if_pos hk]
            show 0 ≤ book.stock - 1
            omega
          · rw [if_neg hk]
            exact h a ha
        cases insertOk <;> simpa using hbound
  · unfold return_book
    cases hf : find_record rid st with
    | none => exact h
    | some record =>
      dsimp only
      by_cases hc : record.return_date.isSome = true
      · rw [if_pos hc]
        exact h
      · rw [if_neg hc]
        dsimp only
        intro b hb
        obtain ⟨a, ha, rfl⟩ := List.mem_map.mp hb
        have hstock : 0 ≤ (((st.books.find?
            (fun x => x.book_id == record.book_id)).map Book.stock).getD 0) := by
          cases hfb : st.books.find? (fun x => x.book_id == record.book_id) with
          | none => simp
          | some bk =>
            have := h bk (List.mem_of_find?_eq_some hfb)
            simpa using this
        by_cases hk : (a.book_id == record.book_id) = true
        · rw [if_pos hk]
          show 0 ≤ (((st.books.find?
              (fun x => x.book_id == record.book_id)).map Book.stock).getD 0)
            + 1
          omega
        · rw [if_neg hk]
          exact h a ha

/-- Witness for the amended claim C2 at a concrete state. -/
theorem c2_witness :
    (∀ b ∈ c2_witness_state.books, 0 ≤ b.stock) ∧
    ((∀ b ∈ (borrow_book 7 1 100 true c2_witness_state).2.books,
        0 ≤ b.stock) ∧
     (∀ b ∈ (return_book 1 200 c2_witness_state).2.books, 0 ≤ b.stock)) :=
  ⟨by decide,
   c2_borrow_return_preserve_nonneg 7 1 1 100 true c2_witness_state
     (by decide)⟩

/-- Claim C3: calling `return_book` on a record that is already Closed yields the already-returned error and leaves the entire state (stock and records included) unchanged; moreover a Closed record stays Closed, with all its references intact, under every `return_book` and `borrow_book`. -/
theorem c3_return_closed (rid : Nat) (now : Int) (st : DB) (r : BorrowRecord)
    (hfind : find_record rid st = some r)
    (hclosed : r.return_date.isSome = true) :
    return_book rid now st = (.error "Book already returned!", st) ∧
    (∀ (rid2 : Nat) (now2 : Int) (r0 : BorrowRecord),
      r0 ∈ st.borrow_records → r0.return_date.isSome = true →
      ∃ r1 ∈ (return_book rid2 now2 st).2.borrow_records,
        r1.record_id = r0.record_id ∧ r1.member_id = r0.member_id ∧
        r1.book_id = r0.book_id ∧ r1.return_date.isSome = true) ∧
    (∀ (mid bid : Nat) (now2 : Int) (insertOk : Bool) (r0 : BorrowRecord),
      r0 ∈ st.borrow_records →
      r0 ∈ (borrow_book mid bid now2 insertOk st).2.borrow_records) := by
  refine ⟨?_, ?_, ?_⟩
  · unfold return_book
    rw [hfind]
    dsimp only
    rw [if_pos hclosed]
  · intro rid2 now2 r0 hmem hcl
    unfold return_book
    cases hf : find_record rid2 st with
    | none => exact ⟨r0, hmem, rfl, rfl, rfl, hcl⟩
    | some record =>
      dsimp only
      by_cases hc : record.return_date.isSome = true
      · rw [if_pos hc]
        exact ⟨r0, hmem, rfl, rfl, rfl, hcl⟩
      · rw [if_neg hc]
        dsimp only
        have hmap := List.mem_map_of_mem (fun x =>
          if x.record_id == rid2 then { x with return_date := some now2 }
          else x) hmem
        by_cases hk : (r0.record_id == rid2) = true
        · simp only [hk, if_true] at hmap
          exact ⟨{ r0 with return_date := some now2 }, hmap, rfl, rfl, rfl, rfl⟩
        · simp only [hk, if_false] at hmap
          exact ⟨r0, hmap, rfl, rfl, rfl, hcl⟩
  · intro mid bid now2 insertOk r0 hmem
    unfold borrow_book
    cases hf : find_book bid st with
    | none => exact hmem
    | some book =>
      dsimp only
      by_cases hs : book.stock ≤ 0
      · rw [if_pos hs]
        exact hmem
      · rw [if_neg hs]
        cases insertOk
        · exact hmem
        · exact List.mem_append_left _ hmem

/-- Witness for claim C3 at a concrete closed record. -/
theorem c3_witness :
    return_book 1 300 c3_state = (.error "Book already returned!", c3_state) :=
  (c3_return_closed 1 300 c3_state ⟨1, 7, 1, 0, some 10⟩
    (by decide) (by decide)).1

/-- Claim C4: `delete_member` (resp. `delete_book`) fails with the has-active-loans error iff some open loan record references the member (resp. book); on failure the state is unchanged, and otherwise the delete succeeds and removes exactly the matching entity rows, leaving the other tables untouched. -/
theorem c4_delete_guard (mid bid : Nat) (st : DB) :
    ((((delete_member mid st).1
        = .error "Member has borrowed books, cannot delete!") ↔
       ∃ r ∈ st.borrow_records, r.member_id = mid ∧ r.return_date = none) ∧
     ((∃ r ∈ st.borrow_records, r.member_id = mid ∧ r.return_date = none) →
       (delete_member mid st).2 = st) ∧
     ((¬ ∃ r ∈ st.borrow_records, r.member_id = mid ∧ r.return_date = none) →
       (delete_member mid st).1
           = .ok (st.members.filter (fun m => m.member_id == mid)) ∧
         (delete_member mid st).2.members
           = st.members.filter (fun m => !(m.member_id == mid)) ∧
         (delete_member mid st).2.books = st.books ∧
         (delete_member mid st).2.borrow_records = st.borrow_records)) ∧
    ((((delete_book bid st).1
        = .error "Book is currently borrowed, cannot delete!") ↔
       ∃ r ∈ st.borrow_records, r.book_id = bid ∧ r.return_date = none) ∧
     ((∃ r ∈ st.borrow_records, r.book_id = bid ∧ r.return_date = none) →
       (delete_book bid st).2 = st) ∧
     ((¬ ∃ r ∈ st.borrow_records, r.book_id = bid ∧ r.return_date = none) →
       (delete_book bid st).1
           = .ok (st.books.filter (fun b => b.book_id == bid)) ∧
         (delete_book bid st).2.books
           = st.books.filter (fun b => !(b.book_id == bid)) ∧
         (delete_book bid st).2.members = st.members ∧
         (delete_book bid st).2.borrow_records = st.borrow_records)) := by
  constructor
  · rw [delete_member_eq]
    by_cases hE : ∃ r ∈ st.borrow_records,
        r.member_id = mid ∧ r.return_date = none
    · rw [if_neg (by
        intro hc
        exact ((member_guard_isEmpty_iff mid st).mp hc) hE)]
      refine ⟨by simp [hE], fun _ => rfl, fun hn => absurd hE hn⟩
    · rw [if_pos ((member_guard_isEmpty_iff mid st).mpr hE)]
      refine ⟨by simp [hE], fun hx => absurd hx hE,
        fun _ => ⟨rfl, rfl, rfl, rfl⟩⟩
  · rw [delete_book_eq]
    by_cases hE : ∃ r ∈ st.borrow_records,
        r.book_id = bid ∧ r.return_date = none
    · rw [if_neg (by
        intro hc
        exact ((book_guard_isEmpty_iff bid st).mp hc) hE)]
      refine ⟨by simp [hE], fun _ => rfl, fun hn => absurd hE hn⟩
    · rw [if_pos ((book_guard_isEmpty_iff bid st).mpr hE)]
      refine ⟨by simp [hE], fun hx => absurd hx hE,
        fun _ => ⟨rfl, rfl, rfl, rfl⟩⟩

/-- Witness for claim C4: a refused member delete and a successful book delete. -/
theorem c4_witness :
    (delete_member 7 c4_busy_state).1
        = .error "Member has borrowed books, cannot delete!" ∧
    (delete_book 2 c4_busy_state).2.books
        = c4_busy_state.books.filter (fun b => !(b.book_id == 2)) :=
  ⟨((c4_delete_guard 7 1 c4_busy_state).1.1).mpr (by decide),
   ((c4_delete_guard 7 2 c4_busy_state).2.2.2 (by decide)).2.1⟩

/-- Claim C5, counterexample: the book-absent case and the out-of-stock case return the very same error value "Book not available!" — there are no distinct `BookNotFound` / `OutOfStock` tags. -/
theorem c5_cex :
    (borrow_book 7 1 100 true c5_missing_state).1
        = (borrow_book 8 1 100 true c5_zero_state).1 ∧
    (borrow_book 7 1 100 true c5_missing_state).1
        = .error "Book not available!" ∧
    find_book 1 c5_missing_state = none ∧
    (find_book 1 c5_zero_state).map Book.stock = some 0 := by
  decide

/-- Claim C5, amended: `borrow_book` returns the single error "Book not available!" both when the book does not exist and when its stock is non-positive, mutating nothing in either case; when the book exists with positive stock it decrements that stock by one and appends a new Open loan record. -/
theorem c5_borrow_cases (mid bid : Nat) (now : Int) (st : DB) :
    (find_book bid st = none →
      borrow_book mid bid now true st = (.error "Book not available!", st)) ∧
    (∀ b, find_book bid st = some b → b.stock ≤ 0 →
      borrow_book mid bid now true st = (.error "Book not available!", st)) ∧
    (∀ b, find_book bid st = some b → 0 < b.stock →
      ∃ rec0 st1, borrow_book mid bid now true st = (.ok [rec0], st1) ∧
        rec0.member_id = mid ∧ rec0.book_id = bid ∧ rec0.return_date = none ∧
        (find_book bid st1).map Book.stock = some (b.stock - 1) ∧
        st1.borrow_records = st.borrow_records ++ [rec0] ∧
        st1.members = st.members) := by
  refine ⟨fun h => borrow_book_absent mid bid now true st h,
    fun b hf hs => borrow_book_nostock mid bid now true st b hf hs, ?_⟩
  intro b hf hs
  refine ⟨_, _, borrow_book_ok mid bid now st b hf hs,
    rfl, rfl, rfl, ?_, rfl, rfl⟩
  show ((st.books.map (fun x =>
      if x.book_id == bid then { x with stock := b.stock - 1 } else x)).find?
        (fun x => x.book_id == bid)).map Book.stock = some (b.stock - 1)
  rw [find?_stock_patch_some bid (b.stock - 1) st.books b hf]
  rfl

/-- Witness for the amended claim C5 at the out-of-stock state. -/
theorem c5_witness :
    find_book 1 c5_zero_state = some ⟨1, "t", "a", "c", 0⟩ ∧
    borrow_book 8 1 100 true c5_zero_state
      = (.error "Book not available!", c5_zero_state) :=
  ⟨by decide,
   (c5_borrow_cases 8 1 100 c5_zero_state).2.1 ⟨1, "t", "a", "c", 0⟩
     (by decide) (by decide)⟩

/-- Claim C6: for a book with positive stock (and fresh auto-increment record id), a successful borrow followed immediately by a return of the created record restores the stock to its pre-borrow value. -/
theorem c6_roundtrip (mid bid : Nat) (now now2 : Int) (st : DB) (b : Book)
    (hfind : find_book bid st = some b) (hstock : 0 < b.stock)
    (hfresh : ∀ r ∈ st.borrow_records, r.record_id ≠ st.next_record_id) :
    ∃ rec0 st1 st2,
      borrow_book mid bid now true st = (.ok [rec0], st1) ∧
      (find_book bid st1).map Book.stock = some (b.stock - 1) ∧
      return_book rec0.record_id now2 st1 = (.ok (), st2) ∧
      (find_book bid st2).map Book.stock = some b.stock := by
  have h2 : (st.books.map (fun x =>
      if x.book_id == bid then { x with stock := b.stock - 1 } else x)).find?
        (fun x => x.book_id == bid) = some { b with stock := b.stock - 1 } :=
    find?_stock_patch_some bid (b.stock - 1) st.books b hfind
  have hrecfind : (st.borrow_records ++
      [(⟨st.next_record_id, mid, bid, now, none⟩ : BorrowRecord)]).find?
        (fun x => x.record_id == st.next_record_id)
      = some ⟨st.next_record_id, mid, bid, now, none⟩ := by
    rw [List.find?_append, List.find?_eq_none.mpr ?_]
    · simp
    · intro a ha
      simp [hfresh a ha]
  have hret := return_book_ok st.next_record_id now2
    { st with
        books := (st.books.map (fun x =>
          if x.book_id == bid then { x with stock := b.stock - 1 } else x)),
        borrow_records := st.borrow_records ++
          [⟨st.next_record_id, mid, bid, now, none⟩],
        next_record_id := st.next_record_id + 1 }
    ⟨st.next_record_id, mid, bid, now, none⟩ hrecfind rfl
  refine ⟨⟨st.next_record_id, mid, bid, now, none⟩, _, _,
    borrow_book_ok mid bid now st b hfind hstock, ?_, hret, ?_⟩
  · unfold find_book
    rw [h2]
    rfl
  · unfold find_book
    dsimp only
    rw [find?_stock_patch_some _ _ _ _ h2]
    dsimp only
    rw [h2]
    simp only [Option.map_some', Option.getD_some]
    have harith : b.stock - 1 + 1 = b.stock := by omega
    rw [harith]

/-- Witness for claim C6: borrow then return on a one-copy book restores stock 1. -/
theorem c6_witness :
    ∃ rec0 st1 st2,
      borrow_book 7 1 100 true c6_state = (.ok [rec0], st1) ∧
      (find_book 1 st1).map Book.stock = some (1 - 1) ∧
      return_book rec0.record_id 200 st1 = (.ok (), st2) ∧
      (find_book 1 st2).map Book.stock = some 1 :=
  c6_roundtrip 7 1 100 200 c6_state ⟨1, "t", "a", "c", 1⟩
    (by decide) (by decide) (by decide)

/-- Claim C7: search on an empty-after-trim keyword returns the empty list; no book id ever appears twice in a search result; for a non-empty trimmed keyword the result is the deduplication, in first-matched order over the field scan order title-author-category, of the matching rows; and every book matching some field appears (exactly once, by the Nodup part) in the result. -/
theorem c7_search (keyword : String) (st : DB) :
    (trimChars keyword = [] → search_books keyword st = []) ∧
    ((search_books keyword st).map Book.book_id).Nodup ∧
    (trimChars keyword ≠ [] → search_books keyword st =
      dedupById (searchFields.flatMap (fun f =>
        st.books.filter (fun x => containsCI (f x) (trimChars keyword)))) []) ∧
    (∀ b ∈ st.books, trimChars keyword ≠ [] →
      (containsCI b.title (trimChars keyword)
        || containsCI b.author (trimChars keyword)
        || containsCI b.category (trimChars keyword)) = true →
      ∃ b2 ∈ search_books keyword st, b2.book_id = b.book_id) := by
  refine ⟨?_, ?_, ?_, ?_⟩
  · intro h
    unfold search_books
    rw [if_pos h]
  · unfold search_books
    by_cases h : trimChars keyword = []
    · rw [if_pos h]
      simp
    · rw [if_neg h]
      exact dedupById_nodup _ []
  · intro h
    unfold search_books
    rw [if_neg h]
  · intro b hb hk hmatch
    have hfield : ∃ f ∈ searchFields, containsCI (f b) (trimChars keyword) = true := by
      simp only [Bool.or_eq_true] at hmatch
      rcases hmatch with (ht | ha) | h3
      · exact ⟨Book.title, by simp [searchFields], ht⟩
      · exact ⟨Book.author, by simp [searchFields], ha⟩
      · exact ⟨Book.category, by simp [searchFields], h3⟩
    obtain ⟨f, hf, hmatchf⟩ := hfield
    have hmem : b ∈ searchFields.flatMap (fun g =>
        st.books.filter (fun x => containsCI (g x) (trimChars keyword))) :=
      List.mem_flatMap.mpr ⟨f, hf, List.mem_filter.mpr ⟨hb, hmatchf⟩⟩
    have hid : b.book_id ∈ (searchFields.flatMap (fun g =>
        st.books.filter (fun x =>
          containsCI (g x) (trimChars keyword)))).map Book.book_id :=
      List.mem_map_of_mem _ hmem
    rcases dedupById_mem_of_mem _ [] b.book_id hid with hfalse | hgood
    · simp at hfalse
    · obtain ⟨b2, hb2, hbid⟩ := List.mem_map.mp hgood
      refine ⟨b2, ?_, hbid⟩
      unfold search_books
      rw [if_neg hk]
      exact hb2

/-- Witness for claim C7: whitespace-only search is empty, and the book of spec scenario C is found by keyword "go". -/
theorem c7_witness :
    search_books "   " c7_state = [] ∧
    ∃ b2 ∈ search_books "go" c7_state, b2.book_id = 1 :=
  ⟨(c7_search "   " c7_state).1 (by decide),
   (c7_search "go" c7_state).2.2.2
     ⟨1, "The Go Programming Language", "Rob Pike", "Systems", 3⟩
     (by decide) (by decide) (by decide)⟩

/-- Claim C8: `report_overdue` is a pure read returning exactly the Open records whose borrow timestamp is strictly older than now minus the fixed default threshold of 14 days; in spec scenario D the record borrowed 20 days ago is reported and the one borrowed 5 days ago is not. -/
theorem c8_overdue_spec :
    (∀ (now : Int) (st : DB) (r : BorrowRecord),
      r ∈ report_overdue now st ↔
        r ∈ st.borrow_records ∧ r.return_date = none ∧
          r.borrow_date < now - 14 * 86400) ∧
    (report_overdue (20 * 86400) c8_state).map BorrowRecord.record_id
      = [1] := by
  constructor
  · intro now st r
    unfold report_overdue
    rw [List.mem_filter]
    simp [Option.isNone_iff_eq_none, and_assoc]
  · decide

/-- Witness for claim C8: the 20-day-old open record is overdue. -/
theorem c8_witness :
    (⟨1, 7, 1, 0, none⟩ : BorrowRecord) ∈ report_overdue (20 * 86400) c8_state :=
  (c8_overdue_spec.1 (20 * 86400) c8_state ⟨1, 7, 1, 0, none⟩).mpr
    ⟨by decide, rfl, by decide⟩

/-- Claim C9: when the aggregation RPC source is unavailable (the call raises), `report_top_books` and `report_member_borrows` both return the empty list rather than an error. -/
theorem c9_aggregation_failure_empty :
    ∀ (e1 e2 : String),
      report_top_books (.error e1) = [] ∧
      report_member_borrows (.error e2) = [] :=
  fun _ _ => ⟨rfl, rfl⟩

/-- Claim C10: `borrow_book` never consults the members table — for a member id that matches no stored member, the borrow still succeeds whenever the book exists with positive stock, decrementing the stock and appending an Open loan record referencing the non-existent member. -/
theorem c10_borrow_ignores_members (mid bid : Nat) (now : Int) (st : DB)
    (b : Book) (_hnomem : ∀ m ∈ st.members, m.member_id ≠ mid)
    (hfind : find_book bid st = some b) (hstock : 0 < b.stock) :
    ∃ rec0 st1, borrow_book mid bid now true st = (.ok [rec0], st1) ∧
      rec0.member_id = mid ∧ rec0.book_id = bid ∧ rec0.return_date = none ∧
      (find_book bid st1).map Book.stock = some (b.stock - 1) ∧
      st1.borrow_records = st.borrow_records ++ [rec0] ∧
      st1.members = st.members := by
  refine ⟨_, _, borrow_book_ok mid bid now st b hfind hstock,
    rfl, rfl, rfl, ?_, rfl, rfl⟩
  show ((st.books.map (fun x =>
      if x.book_id == bid then { x with stock := b.stock - 1 } else x)).find?
        (fun x => x.book_id == bid)).map Book.stock = some (b.stock - 1)
  rw [find?_stock_patch_some bid (b.stock - 1) st.books b hfind]
  rfl

/-- Witness for claim C10 with absent member id 42. -/
theorem c10_witness :
    ∃ rec0 st1, borrow_book 42 1 100 true c10_state = (.ok [rec0], st1) ∧
      rec0.member_id = 42 ∧ rec0.book_id = 1 ∧ rec0.return_date = none ∧
      (find_book 1 st1).map Book.stock = some (1 - 1) ∧
      st1.borrow_records = c10_state.borrow_records ++ [rec0] ∧
      st1.members = c10_state.members :=
  c10_borrow_ignores_members 42 1 100 c10_state ⟨1, "t", "a", "c", 1⟩
    (by decide) (by decide) (by decide)

end LibraryMS
